import Mathlib

/-!
Shallow embedding of the Evo-EduMorph performance & recommendation engine
(progress tracking, metrics aggregation, gap detection, difficulty
adjustment, report generation, study matchmaking).

Modelling conventions:
* JavaScript `number` values (scores, attempts, multipliers) are rationals
  (`ℚ`); `Math.round` is `round` (half-up, as in JS for these inputs);
  `Math.max` / `Math.min` are `max` / `min`.
* Timestamps (`Date`) are `Int` milliseconds since the epoch; calendar-day
  grouping (`toISOString().split("T")[0]`) is floor division by 86400000,
  and "N days ago" is `now - N * 86400000`.
* Firestore documents are Lean structures; a collection is an association
  list or a lookup function; a write is an explicit state transformation.
* JS `Map` / object keys preserve insertion order, modelled by association
  lists built by appending new keys at the end.
-/

namespace EduMorph

/-- `StudentProgress` record (types/features.ts): one completed activity. -/
structure StudentProgress where
  studentId : String
  subject : String
  topic : String
  completedAt : Int
  score : ℚ
  timeSpent : ℚ
  difficulty : String
  attempts : ℚ
deriving DecidableEq, Repr

/-- `PerformanceMetrics` record (types/features.ts). `subjectScores` is the
JS object `subject → mean score`, kept as an association list in key
insertion order. -/
structure PerformanceMetrics where
  studentId : String
  overallScore : ℚ
  subjectScores : List (String × ℚ)
  strengths : List String
  weaknesses : List String
  learningVelocity : Nat
  consistency : ℚ
  lastUpdated : Int
deriving DecidableEq, Repr

/-- `LearningGap` record (types/features.ts). -/
structure LearningGap where
  studentId : String
  subject : String
  topic : String
  weakPoints : List String
  suggestedResources : List String
  priority : String
  identifiedAt : Int
deriving DecidableEq, Repr

/-! ## DifficultyAdjuster (lib/services/difficultyAdjuster.ts) -/

/-- Mean of the `score` fields, written as the source builds it:
`reduce((sum, p) => sum + p.score, 0) / length`. -/
def avgScoreOf (l : List StudentProgress) : ℚ :=
  (l.foldl (fun s p => s + p.score) 0) / (l.length : ℚ)

/-- Mean of the `attempts` fields (`reduce` then divide, as in the source). -/
def avgAttemptsOf (l : List StudentProgress) : ℚ :=
  (l.foldl (fun s p => s + p.attempts) 0) / (l.length : ℚ)

/-- `DifficultyAdjuster.adjustDifficulty` (difficultyAdjuster.ts lines 7-49). -/
def adjustDifficulty (currentDifficulty : String)
    (recentPerformance : List StudentProgress)
    (metrics : PerformanceMetrics) : String :=
  if recentPerformance.length < 3 then currentDifficulty
  else
    let avgScore := avgScoreOf recentPerformance
    let avgAttempts := avgAttemptsOf recentPerformance
    if currentDifficulty = "beginner" then
      if 80 ≤ avgScore ∧ avgAttempts ≤ 3/2 ∧ 70 ≤ metrics.consistency then
        "intermediate"
      else currentDifficulty
    else if currentDifficulty = "intermediate" then
      if 85 ≤ avgScore ∧ avgAttempts ≤ 13/10 ∧ 80 ≤ metrics.consistency then
        "advanced"
      else if avgScore < 60 ∨ 5/2 < avgAttempts then "beginner"
      else currentDifficulty
    else if currentDifficulty = "advanced" then
      if avgScore < 70 ∨ 2 < avgAttempts then "intermediate"
      else currentDifficulty
    else currentDifficulty

/-- `DifficultyAdjuster.getLearningSpeadMultiplier` (difficultyAdjuster.ts
lines 72-94): base 1.0, adjusted by overall-score and consistency bands,
clamped into [0.5, 1.5] by `Math.max(0.5, Math.min(1.5, m))`. -/
def getLearningSpeadMultiplier (metrics : PerformanceMetrics) : ℚ :=
  let m1 : ℚ :=
    if 85 ≤ metrics.overallScore then 1 + 3/10
    else if 70 ≤ metrics.overallScore then 1 + 1/10
    else if metrics.overallScore < 50 then 1 - 3/10
    else 1
  let m2 : ℚ :=
    if 80 ≤ metrics.consistency then m1 + 2/10
    else if metrics.consistency < 40 then m1 - 2/10
    else m1
  max (1/2) (min (3/2) m2)

/-! ## ProgressTracker (lib/services/progressTracker.ts) -/

/-- Milliseconds in one day. -/
def msPerDay : Int := 86400000

/-- Calendar day of a timestamp (`toISOString().split("T")[0]` grouping,
modelled as the UTC day index via floor division). -/
def dayOf (t : Int) : Int := t.fdiv msPerDay

/-- The distinct subjects of an event list, in first-occurrence order (the
insertion order of the JS object keys built by `updatePerformanceMetrics`). -/
def subjectsIn (progress : List StudentProgress) : List String :=
  progress.foldl (fun acc e => if acc.contains e.subject then acc else acc ++ [e.subject]) []

/-- `ProgressTracker.calculateConsistency` (progressTracker source lines
193-216): 50 when fewer than 7 events; else 0 when no event lies in the
trailing 30 days; else `round(min(100, activeDays / 30 * 100))` where
`activeDays` counts distinct calendar days with an event in that window. -/
def calculateConsistency (progress : List StudentProgress) (now : Int) : ℚ :=
  if progress.length < 7 then 50
  else
    let recentProgress := progress.filter (fun p => now - 30 * msPerDay ≤ p.completedAt)
    if recentProgress.length = 0 then 0
    else
      let activeDays := ((recentProgress.map (fun p => dayOf p.completedAt)).dedup).length
      ((round (min (100 : ℚ) (((activeDays : ℚ) / 30) * 100)) : ℤ) : ℚ)

/-- `ProgressTracker.updatePerformanceMetrics` (progressTracker source lines
124-188) as a pure function of the student's event history and the current
time: `none` when the history is empty (the source returns without writing),
otherwise the freshly computed snapshot. -/
def updatePerformanceMetrics (studentId : String)
    (progress : List StudentProgress) (now : Int) : Option PerformanceMetrics :=
  if progress.length = 0 then none
  else
    let overallScore := (progress.foldl (fun s p => s + p.score) 0) / (progress.length : ℚ)
    let subjectScores := (subjectsIn progress).map (fun s =>
      (s, avgScoreOf (progress.filter (fun p => p.subject == s))))
    let strengths := (subjectScores.filter (fun p => 75 ≤ p.2)).map Prod.fst
    let weaknesses := (subjectScores.filter (fun p => p.2 < 60)).map Prod.fst
    let learningVelocity := (progress.filter (fun p => now - 7 * msPerDay ≤ p.completedAt)).length
    some
      { studentId := studentId
        overallScore := overallScore
        subjectScores := subjectScores
        strengths := strengths
        weaknesses := weaknesses
        learningVelocity := learningVelocity
        consistency := calculateConsistency progress now
        lastUpdated := now }

/-- The `performanceMetrics` collection after `updatePerformanceMetrics` for
one student: the snapshot is overwritten when the history is non-empty and
untouched otherwise (the source writes nothing for an empty history). -/
def metricsStoreAfterUpdate (store : String → Option PerformanceMetrics)
    (studentId : String) (progress : List StudentProgress) (now : Int) :
    String → Option PerformanceMetrics :=
  fun uid =>
    if uid = studentId then
      match updatePerformanceMetrics studentId progress now with
      | none => store uid
      | some m => some m
    else store uid

/-- `ProgressTracker.getPerformanceMetrics` (progressTracker source lines
237-253): return the persisted snapshot when present, else lazily compute
one from the event history (which yields `none` for an empty history). -/
def getPerformanceMetrics (stored : Option PerformanceMetrics)
    (studentId : String) (progress : List StudentProgress) (now : Int) :
    Option PerformanceMetrics :=
  match stored with
  | some m => some m
  | none => updatePerformanceMetrics studentId progress now

/-! ## Gap detection (progressTracker source lines 66-119) -/

/-- An event qualifies as gap evidence when `score < 60 || attempts > 2`. -/
def qualifies (e : StudentProgress) : Bool :=
  decide (e.score < 60) || decide (2 < e.attempts)

/-- The JS `Map` key `item.subject + "-" + item.topic`. -/
def gapKey (e : StudentProgress) : String :=
  e.subject ++ "-" ++ e.topic

/-- Gap priority from a score: `score < 40 ? "high" : score < 60 ? "medium"
: "low"`. -/
def priorityOf (score : ℚ) : String :=
  if score < 40 then "high" else if score < 60 then "medium" else "low"

/-- `ProgressTracker.generateSuggestedResources` (lines 221-232). -/
def generateSuggestedResources (subject topic difficulty : String) : List String :=
  [ "Review " ++ difficulty ++ " level materials for " ++ topic
  , "Practice exercises on " ++ topic
  , "Watch tutorial videos about " ++ subject ++ " - " ++ topic
  , "Join study group for " ++ subject ]

/-- The `LearningGap` built from the first qualifying event of a key. -/
def mkGap (studentId : String) (now : Int) (e : StudentProgress) : LearningGap :=
  { studentId := studentId
    subject := e.subject
    topic := e.topic
    weakPoints := []
    suggestedResources := generateSuggestedResources e.subject e.topic e.difficulty
    priority := priorityOf e.score
    identifiedAt := now }

/-- One `forEach` step of `identifyLearningGaps`: a qualifying event whose
key is not yet in the map inserts a new gap; anything else is a no-op. -/
def gapStep (studentId : String) (now : Int)
    (acc : List (String × LearningGap)) (e : StudentProgress) :
    List (String × LearningGap) :=
  if qualifies e then
    if (acc.map Prod.fst).contains (gapKey e) then acc
    else acc ++ [(gapKey e, mkGap studentId now e)]
  else acc

/-- `ProgressTracker.identifyLearningGaps` (lines 66-119) on an event list
(newest-first, as `getStudentProgress` returns it): fold the events through
the map and return the gaps in insertion order (`Array.from(map.values())`). -/
def identifyLearningGaps (studentId : String)
    (progress : List StudentProgress) (now : Int) : List LearningGap :=
  (progress.foldl (gapStep studentId now) []).map Prod.snd

/-! ## StudyMatchmaker (lib/services/studyMatchmaker.ts) -/

/-- `StudyPreferences` (types/features.ts), restricted to the field the
matchmaker reads. -/
structure StudyPreferences where
  subjects : List String
deriving DecidableEq, Repr

/-- `StudyMatch` record (types/features.ts). -/
structure StudyMatch where
  matchId : String
  student1 : String
  student2 : String
  commonSubjects : List String
  compatibilityScore : ℚ
  studyPreferences : StudyPreferences
  matchedAt : Int
deriving DecidableEq, Repr

/-- `StudyMatchmaker.calculateCompatibility` (studyMatchmaker.ts lines
97-119): 40 × subject-overlap fraction, plus `max(0, 30 - |overallScore
diff|) * (30/30)` and the same for consistency, rounded. -/
def calculateCompatibility (metrics1 metrics2 : PerformanceMetrics)
    (commonSubjects : List String) (preferences : StudyPreferences) : ℚ :=
  let s1 : ℚ := ((commonSubjects.length : ℚ) / (preferences.subjects.length : ℚ)) * 40
  let scoreDiff := |metrics1.overallScore - metrics2.overallScore|
  let s2 : ℚ := s1 + max 0 (30 - scoreDiff) * (30 / 30)
  let consistencyDiff := |metrics1.consistency - metrics2.consistency|
  let s3 : ℚ := s2 + max 0 (30 - consistencyDiff) * (30 / 30)
  ((round s3 : ℤ) : ℚ)

/-- The loop body of `findStudyMatches` for one candidate: skip candidates
without metrics, without common subjects, or scoring below 60. -/
def candidateMatch (getMetrics : String → Option PerformanceMetrics)
    (studentId : String) (preferences : StudyPreferences) (now : Int)
    (studentMetrics : PerformanceMetrics) (uid : String) : Option StudyMatch :=
  match getMetrics uid with
  | none => none
  | some candidateMetrics =>
    let commonSubjects := preferences.subjects.filter (fun subject =>
      (candidateMetrics.subjectScores.map Prod.fst).contains subject)
    if commonSubjects.length = 0 then none
    else
      let compatibilityScore :=
        calculateCompatibility studentMetrics candidateMetrics commonSubjects preferences
      if 60 ≤ compatibilityScore then
        some
          { matchId := studentId ++ "-" ++ uid
            student1 := studentId
            student2 := uid
            commonSubjects := commonSubjects
            compatibilityScore := compatibilityScore
            studyPreferences := preferences
            matchedAt := now }
      else none

/-- Insert into a list sorted by `le` (stable when `le` holds on ties). -/
def insertSorted (le : StudyMatch → StudyMatch → Bool) (a : StudyMatch) :
    List StudyMatch → List StudyMatch
  | [] => [a]
  | b :: bs => if le a b then a :: b :: bs else b :: insertSorted le a bs

/-- Stable insertion sort, modelling `matches.sort(...)`. -/
def sortMatches (le : StudyMatch → StudyMatch → Bool) (l : List StudyMatch) :
    List StudyMatch :=
  l.foldr (insertSorted le) []

/-- The descending comparator `(a, b) => b.compatibilityScore -
a.compatibilityScore`. -/
def matchGe (a b : StudyMatch) : Bool :=
  decide (b.compatibilityScore ≤ a.compatibilityScore)

/-- `StudyMatchmaker.findStudyMatches` (studyMatchmaker.ts lines 17-92):
`users` is the `users` collection as (uid, role) pairs; `getMetrics uid`
is the result of `ProgressTracker.getPerformanceMetrics(uid)`. Returns the
top 5 matches (the same list is persisted). -/
def findStudyMatches (users : List (String × String))
    (getMetrics : String → Option PerformanceMetrics)
    (studentId : String) (preferences : StudyPreferences) (now : Int) :
    List StudyMatch :=
  let candidates :=
    ((users.filter (fun u => u.2 == "student")).map Prod.fst).filter (fun uid => uid ≠ studentId)
  match getMetrics studentId with
  | none => []
  | some studentMetrics =>
    let found := candidates.filterMap
      (candidateMatch getMetrics studentId preferences now studentMetrics)
    (sortMatches matchGe found).take 5

/-- The `studyMatches` collection after `findStudyMatches`: only the
returned (top-5) matches are written, keyed by `matchId`. -/
def matchStoreAfter (store : List (String × StudyMatch))
    (users : List (String × String))
    (getMetrics : String → Option PerformanceMetrics)
    (studentId : String) (preferences : StudyPreferences) (now : Int) :
    List (String × StudyMatch) :=
  (findStudyMatches users getMetrics studentId preferences now).foldl
    (fun s m => s ++ [(m.matchId, m)]) store

/-! ## AnalyticsService (lib/services/analyticsService.ts) -/

/-- `SubjectReport` (types/features.ts), as built by
`generateStudentReport`. -/
structure SubjectReport where
  subject : String
  grade : String
  score : ℚ
  topicsCompleted : Nat
  topicsTotal : Nat
  strengths : List String
  improvements : List String
deriving DecidableEq, Repr

/-- `StudentReport` (types/features.ts); the period is a pair of
timestamps. -/
structure StudentReport where
  studentId : String
  reportId : String
  periodStart : Int
  periodEnd : Int
  overallGrade : String
  subjects : List SubjectReport
  attendance : ℚ
  behavioralNotes : List String
  recommendations : List String
  generatedAt : Int
deriving DecidableEq, Repr

/-- `AnalyticsService.calculateOverallGrade` (analyticsService.ts lines
197-206). -/
def calculateOverallGrade (score : ℚ) : String :=
  if 90 ≤ score then "A+"
  else if 85 ≤ score then "A"
  else if 80 ≤ score then "B+"
  else if 75 ≤ score then "B"
  else if 70 ≤ score then "C+"
  else if 65 ≤ score then "C"
  else if 60 ≤ score then "D"
  else "F"

/-- The per-subject grade chain inside `generateStudentReport` (lines
143-151): `grade = "F"` overwritten by the first matching threshold. -/
def subjectGrade (avgScore : ℚ) : String :=
  if 90 ≤ avgScore then "A+"
  else if 85 ≤ avgScore then "A"
  else if 80 ≤ avgScore then "B+"
  else if 75 ≤ avgScore then "B"
  else if 70 ≤ avgScore then "C+"
  else if 65 ≤ avgScore then "C"
  else if 60 ≤ avgScore then "D"
  else "F"

/-- One `SubjectReport` of `generateStudentReport` (lines 136-166). -/
def mkSubjectReport (metrics : PerformanceMetrics)
    (subject : String) (progressList : List StudentProgress) : SubjectReport :=
  let avgScore := avgScoreOf progressList
  let topicsCompleted := ((progressList.map (fun p => p.topic)).dedup).length
  { subject := subject
    grade := subjectGrade avgScore
    score := avgScore
    topicsCompleted := topicsCompleted
    topicsTotal := topicsCompleted + 5
    strengths :=
      if metrics.strengths.contains subject then
        ["Consistent performance", "Good understanding"]
      else []
    improvements :=
      if metrics.weaknesses.contains subject then
        ["Needs more practice", "Review fundamentals"]
      else [] }

/-- `AnalyticsService.generateStudentReport` (lines 109-195) as a pure
function: `metricsOpt` is the `getPerformanceMetrics` result; the second
component is the `reports` collection, to which the new report is appended
on success and which is untouched when the error is thrown. -/
def generateStudentReport (studentId : String)
    (progress : List StudentProgress) (metricsOpt : Option PerformanceMetrics)
    (startDate endDate : Int) (now : Int) (reportStore : List StudentReport) :
    Except String StudentReport × List StudentReport :=
  match metricsOpt with
  | none => (Except.error "No performance data available", reportStore)
  | some metrics =>
    let periodProgress := progress.filter (fun p =>
      startDate ≤ p.completedAt ∧ p.completedAt ≤ endDate)
    let subjects := (subjectsIn periodProgress).map (fun s =>
      mkSubjectReport metrics s (periodProgress.filter (fun p => p.subject == s)))
    let report : StudentReport :=
      { studentId := studentId
        reportId := studentId ++ "-" ++ toString now
        periodStart := startDate
        periodEnd := endDate
        overallGrade := calculateOverallGrade metrics.overallScore
        subjects := subjects
        attendance := 85
        behavioralNotes := ["Engaged in class", "Participates actively"]
        recommendations :=
          (metrics.weaknesses.map (fun w => "Focus on improving " ++ w)) ++
            ["Maintain current study habits for strong subjects"]
        generatedAt := now }
    (Except.ok report, reportStore ++ [report])

/-! ## Sample data for concrete evaluations -/

/-- A concrete event with the given subject, topic, score and time. -/
def sampleEvent (subject topic : String) (score : ℚ) (completedAt : Int) :
    StudentProgress :=
  { studentId := "s1"
    subject := subject
    topic := topic
    completedAt := completedAt
    score := score
    timeSpent := 30
    difficulty := "beginner"
    attempts := 1 }

/-- A concrete metrics snapshot with the given overall score and
consistency. -/
def sampleMetrics (overallScore consistency : ℚ) : PerformanceMetrics :=
  { studentId := "s1"
    overallScore := overallScore
    subjectScores := [("Math", overallScore)]
    strengths := []
    weaknesses := []
    learningVelocity := 0
    consistency := consistency
    lastUpdated := 0 }

/-! ## Helper lemmas -/

/-- The source's `reduce((sum, p) => sum + p.score, 0)` is the sum of the
scores. -/
theorem foldl_score_eq (l : List StudentProgress) (a : ℚ) :
    l.foldl (fun s p => s + p.score) a = a + (l.map (fun p => p.score)).sum := by
  induction l generalizing a with
  | nil => simp
  | cons e es ih => simp [List.foldl_cons, ih, add_assoc]

/-! ## Claims -/

/-- C1: for every non-empty event history, the `overallScore` of the
snapshot computed by `updatePerformanceMetrics` equals the arithmetic mean
of the scores of all events in the history (exact equality in ℚ, which is
stronger than the claimed 1e-9 tolerance). -/
theorem overallScore_eq_mean (studentId : String)
    (progress : List StudentProgress) (now : Int) (h : progress ≠ []) :
    ∃ m, updatePerformanceMetrics studentId progress now = some m ∧
      m.overallScore = (progress.map (fun p => p.score)).sum / (progress.length : ℚ) := by
  have hlen : ¬ progress.length = 0 := by
    simpa [List.length_eq_zero] using h
  unfold updatePerformanceMetrics
  rw [if_neg hlen]
  exact ⟨_, rfl, by simp [foldl_score_eq]⟩

/-- C1 witness: a two-event history with scores 80 and 90. -/
theorem overallScore_eq_mean_witness :
    [sampleEvent "Math" "algebra" 80 0, sampleEvent "Math" "geometry" 90 0] ≠ ([] : List StudentProgress) ∧
      ∃ m, updatePerformanceMetrics "s1"
          [sampleEvent "Math" "algebra" 80 0, sampleEvent "Math" "geometry" 90 0] 0 = some m ∧
        m.overallScore =
          (([sampleEvent "Math" "algebra" 80 0, sampleEvent "Math" "geometry" 90 0].map
            (fun p => p.score)).sum) / 2 :=
  ⟨by decide, overallScore_eq_mean "s1"
    [sampleEvent "Math" "algebra" 80 0, sampleEvent "Math" "geometry" 90 0] 0 (by decide)⟩

/-- C3: with fewer than 3 recent events, `adjustDifficulty` returns the
current difficulty unchanged, whatever the metrics and the events are. -/
theorem adjustDifficulty_unchanged_when_few (currentDifficulty : String)
    (recentPerformance : List StudentProgress) (metrics : PerformanceMetrics)
    (h : recentPerformance.length < 3) :
    adjustDifficulty currentDifficulty recentPerformance metrics = currentDifficulty := by
  unfold adjustDifficulty
  rw [if_pos h]

/-- C3 witness: current "beginner" with 2 events of score 100 stays
"beginner". -/
theorem adjustDifficulty_unchanged_when_few_witness :
    [sampleEvent "Math" "algebra" 100 0, sampleEvent "Math" "geometry" 100 0].length < 3 ∧
      adjustDifficulty "beginner"
        [sampleEvent "Math" "algebra" 100 0, sampleEvent "Math" "geometry" 100 0]
        (sampleMetrics 100 100) = "beginner" :=
  ⟨by decide, adjustDifficulty_unchanged_when_few "beginner" _ _ (by decide)⟩

/-- C4: the learning speed multiplier is always within [0.5, 1.5]; it is
exactly 0.5 at overallScore = 0, consistency = 0 and exactly 1.5 at
overallScore = 100, consistency = 100. -/
theorem learningSpeadMultiplier_bounds :
    (∀ metrics : PerformanceMetrics,
      1/2 ≤ getLearningSpeadMultiplier metrics ∧ getLearningSpeadMultiplier metrics ≤ 3/2)
    ∧ getLearningSpeadMultiplier (sampleMetrics 0 0) = 1/2
    ∧ getLearningSpeadMultiplier (sampleMetrics 100 100) = 3/2 := by
  refine ⟨fun metrics => ⟨le_max_left _ _, max_le (by norm_num) (min_le_left _ _)⟩, ?_, ?_⟩
  · norm_num [getLearningSpeadMultiplier, sampleMetrics, min_def, max_def]
  · norm_num [getLearningSpeadMultiplier, sampleMetrics, min_def, max_def]

/-- C6: whenever the history has fewer than 7 events, consistency is the
fixed sentinel 50, regardless of scores, subjects or timestamps. -/
theorem consistency_eq_50_when_few (progress : List StudentProgress) (now : Int)
    (h : progress.length < 7) : calculateConsistency progress now = 50 := by
  unfold calculateConsistency
  rw [if_pos h]

/-- C6 witness: three events with assorted scores and timestamps. -/
theorem consistency_eq_50_when_few_witness :
    [sampleEvent "Math" "algebra" 10 0, sampleEvent "Sci" "optics" 95 86400000,
      sampleEvent "Math" "calculus" 55 172800000].length < 7 ∧
      calculateConsistency
        [sampleEvent "Math" "algebra" 10 0, sampleEvent "Sci" "optics" 95 86400000,
          sampleEvent "Math" "calculus" 55 172800000] 999999999 = 50 :=
  ⟨by decide, consistency_eq_50_when_few _ _ (by decide)⟩

/-- C9: at a fixed current time, recomputing the metrics twice in sequence
with no new events leaves exactly the store the single recomputation
produces — the snapshot is a pure function of the event history and the
time, not of the previous snapshot (so the two snapshots agree on every
field, in particular on everything except `lastUpdated`). -/
theorem metrics_recompute_idempotent (store : String → Option PerformanceMetrics)
    (studentId : String) (progress : List StudentProgress) (now : Int) :
    metricsStoreAfterUpdate (metricsStoreAfterUpdate store studentId progress now)
        studentId progress now
      = metricsStoreAfterUpdate store studentId progress now := by
  funext uid
  unfold metricsStoreAfterUpdate
  by_cases h : uid = studentId
  · cases hm : updatePerformanceMetrics studentId progress now <;> simp [h, hm]
  · simp [h]

/-- C7: both the per-subject grade chain and `calculateOverallGrade` use the
same inclusive thresholds: ≥90 "A+", ≥85 "A", ≥80 "B+", ≥75 "B", ≥70 "C+",
≥65 "C", ≥60 "D", else "F"; in particular 90 grades "A+" and 89.99 grades
"A". -/
theorem grade_thresholds :
    (∀ score : ℚ, subjectGrade score = calculateOverallGrade score)
    ∧ (∀ score : ℚ,
        (calculateOverallGrade score = "A+" ↔ 90 ≤ score)
        ∧ (calculateOverallGrade score = "A" ↔ 85 ≤ score ∧ score < 90)
        ∧ (calculateOverallGrade score = "B+" ↔ 80 ≤ score ∧ score < 85)
        ∧ (calculateOverallGrade score = "B" ↔ 75 ≤ score ∧ score < 80)
        ∧ (calculateOverallGrade score = "C+" ↔ 70 ≤ score ∧ score < 75)
        ∧ (calculateOverallGrade score = "C" ↔ 65 ≤ score ∧ score < 70)
        ∧ (calculateOverallGrade score = "D" ↔ 60 ≤ score ∧ score < 65)
        ∧ (calculateOverallGrade score = "F" ↔ score < 60))
    ∧ calculateOverallGrade 90 = "A+"
    ∧ calculateOverallGrade (8999/100) = "A" := by
  refine ⟨fun score => rfl, fun score => ?_, by norm_num [calculateOverallGrade],
    by norm_num [calculateOverallGrade]⟩
  unfold calculateOverallGrade
  split_ifs with h1 h2 h3 h4 h5 h6 h7 <;>
    refine ⟨?_, ?_, ?_, ?_, ?_, ?_, ?_, ?_⟩ <;>
    simp_all <;>
    first
      | linarith
      | (intro h; linarith)

/-- C8: `generateStudentReport` fails with the "No performance data
available" error exactly when the metrics lookup yields nothing, leaving
the reports collection untouched; with metrics present it returns a report
and appends exactly that report to the collection. -/
theorem generateStudentReport_requires_metrics (studentId : String)
    (progress : List StudentProgress) (metricsOpt : Option PerformanceMetrics)
    (startDate endDate now : Int) (reportStore : List StudentReport) :
    (metricsOpt = none →
      generateStudentReport studentId progress metricsOpt startDate endDate now reportStore
        = (Except.error "No performance data available", reportStore))
    ∧ (∀ m, metricsOpt = some m →
        ∃ r, generateStudentReport studentId progress metricsOpt startDate endDate now reportStore
          = (Except.ok r, reportStore ++ [r])) := by
  constructor
  · intro h
    rw [h]
    rfl
  · intro m h
    rw [h]
    exact ⟨_, rfl⟩

/-- C8 witness: with no metrics the error is returned and the store is
untouched; with the sample metrics a report is produced. -/
theorem generateStudentReport_requires_metrics_witness :
    generateStudentReport "s1" [] none 0 100 50 []
        = (Except.error "No performance data available", ([] : List StudentReport))
    ∧ ∃ r, generateStudentReport "s1" [] (some (sampleMetrics 80 60)) 0 100 50 []
        = (Except.ok r, [] ++ [r]) :=
  ⟨(generateStudentReport_requires_metrics "s1" [] none 0 100 50 []).1 rfl,
    (generateStudentReport_requires_metrics "s1" [] (some (sampleMetrics 80 60)) 0 100 50 []).2
      (sampleMetrics 80 60) rfl⟩

/-- Every element of `insertSorted le a l` is `a` or an element of `l`. -/
theorem mem_insertSorted {le : StudyMatch → StudyMatch → Bool} {a x : StudyMatch} :
    ∀ {l : List StudyMatch}, x ∈ insertSorted le a l → x = a ∨ x ∈ l := by
  intro l
  induction l with
  | nil => intro h; simpa [insertSorted] using h
  | cons b bs ih =>
    intro h
    unfold insertSorted at h
    split_ifs at h with hle
    · rcases List.mem_cons.1 h with h | h
      · exact Or.inl h
      · exact Or.inr h
    · rcases List.mem_cons.1 h with h | h
      · exact Or.inr (h ▸ List.mem_cons_self _ _)
      · rcases ih h with h | h
        · exact Or.inl h
        · exact Or.inr (List.mem_cons_of_mem _ h)

/-- Sorting does not introduce elements. -/
theorem mem_sortMatches {le : StudyMatch → StudyMatch → Bool} {x : StudyMatch} :
    ∀ {l : List StudyMatch}, x ∈ sortMatches le l → x ∈ l := by
  intro l
  induction l with
  | nil => intro h; simp [sortMatches] at h
  | cons b bs ih =>
    intro h
    rw [sortMatches, List.foldr_cons] at h
    rcases mem_insertSorted h with h | h
    · exact h ▸ List.mem_cons_self _ _
    · exact List.mem_cons_of_mem _ (ih h)

/-- Any match the candidate loop produces has compatibility score ≥ 60. -/
theorem candidateMatch_score_ge
    {getMetrics : String → Option PerformanceMetrics} {studentId : String}
    {preferences : StudyPreferences} {now : Int}
    {studentMetrics : PerformanceMetrics} {uid : String} {m : StudyMatch}
    (h : candidateMatch getMetrics studentId preferences now studentMetrics uid = some m) :
    60 ≤ m.compatibilityScore := by
  unfold candidateMatch at h
  cases hg : getMetrics uid with
  | none => rw [hg] at h; exact absurd h (by simp)
  | some candidateMetrics =>
    rw [hg] at h
    dsimp only at h
    split_ifs at h with h1 h2
    · injection h with h
      subst h
      exact h2

/-- C5: `findStudyMatches` always returns at most 5 matches, each with
compatibility score ≥ 60; and a candidate sharing the single preferred
subject "Math" whose overall score and consistency equal the requesting
student's scores exactly 40 + 30 + 30 = 100. -/
theorem matchmaking_top5_and_threshold :
    (∀ (users : List (String × String))
      (getMetrics : String → Option PerformanceMetrics)
      (studentId : String) (preferences : StudyPreferences) (now : Int),
      (findStudyMatches users getMetrics studentId preferences now).length ≤ 5
      ∧ ∀ m ∈ findStudyMatches users getMetrics studentId preferences now,
          60 ≤ m.compatibilityScore)
    ∧ (∀ metrics1 metrics2 : PerformanceMetrics,
        metrics1.overallScore = metrics2.overallScore →
        metrics1.consistency = metrics2.consistency →
        calculateCompatibility metrics1 metrics2 ["Math"] ⟨["Math"]⟩ = 100) := by
  constructor
  · intro users getMetrics studentId preferences now
    unfold findStudyMatches
    cases hg : getMetrics studentId with
    | none => simp
    | some studentMetrics =>
      dsimp only
      constructor
      · exact List.length_take_le _ _
      · intro m hm
        have hm1 := List.take_subset _ _ hm
        have hm2 := mem_sortMatches hm1
        obtain ⟨uid, -, heq⟩ := List.mem_filterMap.1 hm2
        exact candidateMatch_score_ge heq
  · intro metrics1 metrics2 h1 h2
    unfold calculateCompatibility
    rw [h1, h2]
    norm_num [round_eq]

/-- C5 witness: the generic bound at a concrete query, and the concrete
100-point compatibility for identical metrics sharing "Math". -/
theorem matchmaking_top5_and_threshold_witness :
    (findStudyMatches [("u2", "student")] (fun _ => none) "u1" ⟨["Math"]⟩ 0).length ≤ 5
    ∧ calculateCompatibility (sampleMetrics 80 60) (sampleMetrics 80 60) ["Math"] ⟨["Math"]⟩
        = 100 :=
  ⟨(matchmaking_top5_and_threshold.1 [("u2", "student")] (fun _ => none) "u1" ⟨["Math"]⟩ 0).1,
    matchmaking_top5_and_threshold.2 (sampleMetrics 80 60) (sampleMetrics 80 60) rfl rfl⟩

/-- C10: when the requesting student has no persisted snapshot and no
events (so the lazy metrics lookup yields nothing), `findStudyMatches`
returns the empty list and writes no `StudyMatch` documents, for any
candidate pool and preferences. -/
theorem no_student_metrics_no_matches (users : List (String × String))
    (storedOf : String → Option PerformanceMetrics)
    (eventsOf : String → List StudentProgress)
    (studentId : String) (preferences : StudyPreferences) (now : Int)
    (store : List (String × StudyMatch))
    (h1 : storedOf studentId = none) (h2 : eventsOf studentId = []) :
    findStudyMatches users
        (fun uid => getPerformanceMetrics (storedOf uid) uid (eventsOf uid) now)
        studentId preferences now = []
    ∧ matchStoreAfter store users
        (fun uid => getPerformanceMetrics (storedOf uid) uid (eventsOf uid) now)
        studentId preferences now = store := by
  have hm : getPerformanceMetrics (storedOf studentId) studentId (eventsOf studentId) now
      = none := by
    rw [h1, h2]
    rfl
  have hfind : findStudyMatches users
      (fun uid => getPerformanceMetrics (storedOf uid) uid (eventsOf uid) now)
      studentId preferences now = [] := by
    unfold findStudyMatches
    simp only [hm]
  refine ⟨hfind, ?_⟩
  unfold matchStoreAfter
  rw [hfind]
  rfl

/-- C10 witness: a concrete candidate pool with an empty store and no data
for the requesting student. -/
theorem no_student_metrics_no_matches_witness :
    findStudyMatches [("u2", "student")]
        (fun uid => getPerformanceMetrics none uid [] 0) "u1" ⟨["Math"]⟩ 0 = []
    ∧ matchStoreAfter [] [("u2", "student")]
        (fun uid => getPerformanceMetrics none uid [] 0) "u1" ⟨["Math"]⟩ 0 = [] :=
  no_student_metrics_no_matches [("u2", "student")] (fun _ => none) (fun _ => [])
    "u1" ⟨["Math"]⟩ 0 [] rfl rfl

/-! ## Gap-map bookkeeping for the gap-detection claims -/

/-- Lookup in the gap map by its string key. -/
def lookupKey (k : String) (l : List (String × LearningGap)) : Option LearningGap :=
  (l.find? (fun p => p.1 == k)).map Prod.snd

/-- No two events of the history with distinct (subject, topic) pairs share
the JS map key `subject ++ "-" ++ topic` (this fails when hyphens make
distinct pairs collide, e.g. ("a-b", "c") and ("a", "b-c")). -/
def keyInjOn (progress : List StudentProgress) : Prop :=
  ∀ e1 ∈ progress, ∀ e2 ∈ progress, gapKey e1 = gapKey e2 →
    e1.subject = e2.subject ∧ e1.topic = e2.topic

/-- The first event of the history, in iteration order (newest first), for
the pair (s, t) that qualifies as gap evidence. -/
def firstQualifying (progress : List StudentProgress) (s t : String) :
    Option StudentProgress :=
  progress.find? (fun e => e.subject == s && (e.topic == t && qualifies e))

/-- `find?` only depends on the predicate's values on the list. -/
theorem find?_ext {α : Type} {p q : α → Bool} :
    ∀ {l : List α}, (∀ x ∈ l, p x = q x) → l.find? p = l.find? q := by
  intro l
  induction l with
  | nil => intro _; rfl
  | cons a as ih =>
    intro h
    have ha := h a (List.mem_cons_self _ _)
    by_cases hp : p a = true
    · rw [List.find?_cons_of_pos _ hp, List.find?_cons_of_pos _ (ha ▸ hp)]
    · rw [List.find?_cons_of_neg _ hp, List.find?_cons_of_neg _ (ha ▸ hp),
        ih (fun x hx => h x (List.mem_cons_of_mem _ hx))]

/-- A key is in the gap map exactly when its lookup succeeds. -/
theorem lookupKey_isSome_iff (k : String) (acc : List (String × LearningGap)) :
    (lookupKey k acc).isSome = true ↔ k ∈ acc.map Prod.fst := by
  unfold lookupKey
  have hmap : ∀ o : Option (String × LearningGap), (o.map Prod.snd).isSome = o.isSome := by
    intro o
    cases o <;> rfl
  rw [hmap, List.find?_isSome]
  simp [List.mem_map, beq_iff_eq]

/-- `contains` on the key list agrees with the lookup. -/
theorem contains_keys_iff (k : String) (acc : List (String × LearningGap)) :
    ((acc.map Prod.fst).contains k = true) ↔ (lookupKey k acc).isSome = true := by
  rw [lookupKey_isSome_iff]
  exact List.elem_iff

/-- Lookup distributes over append. -/
theorem lookupKey_append (k : String) (acc l2 : List (String × LearningGap)) :
    lookupKey k (acc ++ l2) = (lookupKey k acc).or (lookupKey k l2) := by
  unfold lookupKey
  rw [List.find?_append]
  cases acc.find? (fun p => p.1 == k) <;> rfl

/-- Lookup in a one-entry map. -/
theorem lookupKey_singleton (k k' : String) (g : LearningGap) :
    lookupKey k [(k', g)] = if k' = k then some g else none := by
  unfold lookupKey
  by_cases h : k' = k
  · rw [if_pos h, List.find?_cons_of_pos _ (by simpa using h)]
    rfl
  · rw [if_neg h, List.find?_cons_of_neg _ (by simpa using h)]
    rfl

/-- The gap map built by the fold answers every key lookup with the first
qualifying event bearing that key (unless the initial map already held the
key). -/
theorem gapFold_lookup (studentId : String) (now : Int) :
    ∀ (evs : List StudentProgress) (acc : List (String × LearningGap)) (k : String),
      lookupKey k (evs.foldl (gapStep studentId now) acc) =
        (lookupKey k acc).or
          ((evs.find? (fun e => qualifies e && (gapKey e == k))).map (mkGap studentId now)) := by
  intro evs
  induction evs with
  | nil =>
    intro acc k
    rw [List.foldl_nil, List.find?_nil, Option.map_none', Option.or_none]
  | cons e es ih =>
    intro acc k
    rw [List.foldl_cons]
    by_cases hq : qualifies e = true
    · by_cases hc : ((acc.map Prod.fst).contains (gapKey e)) = true
      · have hstep : gapStep studentId now acc e = acc := by
          unfold gapStep
          rw [if_pos hq, if_pos hc]
        rw [hstep, ih acc k]
        by_cases hk : gapKey e = k
        · have hsome : (lookupKey k acc).isSome = true := by
            rw [← hk]
            exact (contains_keys_iff _ _).1 hc
          rw [Option.or_of_isSome hsome, Option.or_of_isSome hsome]
        · rw [List.find?_cons_of_neg _ (by simp [hk, hq])]
      · have hstep : gapStep studentId now acc e
            = acc ++ [(gapKey e, mkGap studentId now e)] := by
          unfold gapStep
          rw [if_pos hq, if_neg hc]
        rw [hstep, ih _ k, lookupKey_append, lookupKey_singleton]
        by_cases hk : gapKey e = k
        · have hnone : lookupKey k acc = none := by
            cases hl : lookupKey k acc with
            | none => rfl
            | some g =>
              exfalso
              apply hc
              rw [contains_keys_iff, hk, hl]
              rfl
          rw [if_pos hk, hnone, Option.none_or, Option.none_or,
            List.find?_cons_of_pos _ (by simp [hq, hk]), Option.map_some']
          rfl
        · rw [if_neg hk, Option.or_none, List.find?_cons_of_neg _ (by simp [hk, hq])]
    · have hstep : gapStep studentId now acc e = acc := by
        unfold gapStep
        rw [if_neg hq]
      rw [hstep, ih acc k, List.find?_cons_of_neg _ (by simp [hq])]

/-- Every entry of the gap map comes from a qualifying event of the
history (or was already in the initial map). -/
theorem gapFold_mem (studentId : String) (now : Int) :
    ∀ (evs : List StudentProgress) (acc : List (String × LearningGap))
      (p : String × LearningGap),
      p ∈ evs.foldl (gapStep studentId now) acc →
      p ∈ acc ∨ ∃ e ∈ evs, qualifies e = true ∧ p = (gapKey e, mkGap studentId now e) := by
  intro evs
  induction evs with
  | nil => intro acc p h; exact Or.inl h
  | cons e es ih =>
    intro acc p h
    rw [List.foldl_cons] at h
    rcases ih (gapStep studentId now acc e) p h with h1 | h1
    · unfold gapStep at h1
      split_ifs at h1 with hq hc
      · exact Or.inl h1
      · rcases List.mem_append.1 h1 with h2 | h2
        · exact Or.inl h2
        · right
          exact ⟨e, List.mem_cons_self _ _, hq, List.mem_singleton.1 h2⟩
      · exact Or.inl h1
    · obtain ⟨e', he', hq', hp⟩ := h1
      exact Or.inr ⟨e', List.mem_cons_of_mem _ he', hq', hp⟩

/-- The gap map never holds two entries with the same key. -/
theorem gapFold_keys_nodup (studentId : String) (now : Int) :
    ∀ (evs : List StudentProgress) (acc : List (String × LearningGap)),
      (acc.map Prod.fst).Nodup →
      ((evs.foldl (gapStep studentId now) acc).map Prod.fst).Nodup := by
  intro evs
  induction evs with
  | nil => intro acc h; exact h
  | cons e es ih =>
    intro acc h
    rw [List.foldl_cons]
    apply ih
    unfold gapStep
    split_ifs with hq hc
    · exact h
    · simp only [List.map_append, List.map_cons, List.map_nil]
      rw [List.nodup_append]
      refine ⟨h, List.nodup_singleton _, ?_⟩
      intro a ha hb
      rw [List.mem_singleton] at hb
      subst hb
      exact hc (List.elem_iff.2 ha)
    · exact h

/-- With distinct keys, membership determines the lookup. -/
theorem lookupKey_eq_of_mem {k : String} {g : LearningGap} :
    ∀ {l : List (String × LearningGap)}, (l.map Prod.fst).Nodup → (k, g) ∈ l →
      lookupKey k l = some g := by
  intro l
  induction l with
  | nil => intro _ h; exact absurd h (List.not_mem_nil _)
  | cons p ps ih =>
    intro hnd hmem
    rw [List.map_cons, List.nodup_cons] at hnd
    rcases List.mem_cons.1 hmem with h | h
    · rw [← h]
      unfold lookupKey
      rw [List.find?_cons_of_pos _ (by simp)]
      rfl
    · have hk : k ∈ ps.map Prod.fst := List.mem_map.2 ⟨(k, g), h, rfl⟩
      have hne : ¬ (p.1 == k) = true := by
        simp only [beq_iff_eq]
        intro heq
        exact hnd.1 (heq ▸ hk)
      unfold lookupKey
      rw [@List.find?_cons_of_neg _ (fun q => q.1 == k) p ps hne]
      exact ih hnd.2 h

/-- A successful lookup is a member of the map. -/
theorem mem_of_lookupKey {k : String} {g : LearningGap}
    {l : List (String × LearningGap)} (h : lookupKey k l = some g) : (k, g) ∈ l := by
  unfold lookupKey at h
  cases hf : l.find? (fun p => p.1 == k) with
  | none => rw [hf] at h; exact absurd h (by simp)
  | some pr =>
    rw [hf, Option.map_some'] at h
    have h1 : pr.2 = g := by simpa using h
    have h2 : pr.1 = k := by simpa using List.find?_some hf
    have h3 := List.mem_of_find?_eq_some hf
    rw [← h1, ← h2]
    simpa using h3

/-- C2 counterexample: the gap map is keyed by the string
`subject ++ "-" ++ topic`, so the distinct pairs ("a-b", "c") and
("a", "b-c") collide; the second pair has a qualifying event (score 10)
but no gap is emitted for it, refuting the claimed "iff" as stated. -/
theorem learningGaps_key_collision :
    (∃ e ∈ [sampleEvent "a-b" "c" 10 0, sampleEvent "a" "b-c" 10 0],
        e.subject = "a" ∧ e.topic = "b-c" ∧ qualifies e = true)
    ∧ ∀ g ∈ identifyLearningGaps "s1"
        [sampleEvent "a-b" "c" 10 0, sampleEvent "a" "b-c" 10 0] 0,
        ¬(g.subject = "a" ∧ g.topic = "b-c") := by decide

/-- C2 (amended): when no two events with distinct (subject, topic) pairs
share the map key `subject ++ "-" ++ topic`, `identifyLearningGaps` emits a
gap for (s, t) iff some event for that pair has score < 60 or attempts > 2;
every gap for (s, t) takes its priority from the first-encountered
qualifying event in iteration order, and the priority is "high" iff that
score is < 40, "medium" iff it is in [40, 60), and "low" otherwise. -/
theorem learningGaps_iff_qualifying (studentId : String)
    (progress : List StudentProgress) (now : Int) (s t : String)
    (hinj : keyInjOn progress) :
    ((∃ g ∈ identifyLearningGaps studentId progress now, g.subject = s ∧ g.topic = t) ↔
      ∃ e ∈ progress, e.subject = s ∧ e.topic = t ∧ qualifies e = true)
    ∧ (∀ g ∈ identifyLearningGaps studentId progress now, g.subject = s → g.topic = t →
        ∃ e, firstQualifying progress s t = some e ∧ g.priority = priorityOf e.score)
    ∧ (∀ x : ℚ, (priorityOf x = "high" ↔ x < 40)
        ∧ (priorityOf x = "medium" ↔ 40 ≤ x ∧ x < 60)
        ∧ (priorityOf x = "low" ↔ 60 ≤ x)) := by
  refine ⟨⟨?_, ?_⟩, ?_, ?_⟩
  · rintro ⟨g, hg, hs, ht⟩
    unfold identifyLearningGaps at hg
    obtain ⟨p, hp, hpg⟩ := List.mem_map.1 hg
    rcases gapFold_mem studentId now progress [] p hp with h0 | ⟨e, he, hq, hpe⟩
    · exact absurd h0 (List.not_mem_nil _)
    · have hgeq : g = mkGap studentId now e := by rw [← hpg, hpe]
      rw [hgeq] at hs ht
      exact ⟨e, he, hs, ht, hq⟩
  · rintro ⟨e, he, hs, ht, hq⟩
    have hpred : (qualifies e && (gapKey e == gapKey e)) = true := by simp [hq]
    have hiss : ((progress.find? (fun x => qualifies x && (gapKey x == gapKey e))).isSome
        = true) := List.find?_isSome.2 ⟨e, he, hpred⟩
    obtain ⟨e0, hfind⟩ := Option.isSome_iff_exists.1 hiss
    have he0mem := List.mem_of_find?_eq_some hfind
    have hpe0 := List.find?_some hfind
    rw [Bool.and_eq_true, beq_iff_eq] at hpe0
    obtain ⟨hq0, hk0⟩ := hpe0
    have hst := hinj e0 he0mem e he hk0
    have hlook := gapFold_lookup studentId now progress [] (gapKey e)
    rw [show lookupKey (gapKey e) [] = none from rfl, Option.none_or, hfind,
      Option.map_some'] at hlook
    have hmem := mem_of_lookupKey hlook
    refine ⟨mkGap studentId now e0, ?_, ?_, ?_⟩
    · unfold identifyLearningGaps
      exact List.mem_map.2 ⟨_, hmem, rfl⟩
    · show e0.subject = s
      rw [hst.1, hs]
    · show e0.topic = t
      rw [hst.2, ht]
  · intro g hg hs ht
    unfold identifyLearningGaps at hg
    obtain ⟨p, hp, hpg⟩ := List.mem_map.1 hg
    rcases gapFold_mem studentId now progress [] p hp with h0 | ⟨e1, he1, hq1, hpe1⟩
    · exact absurd h0 (List.not_mem_nil _)
    have hgeq : g = mkGap studentId now e1 := by rw [← hpg, hpe1]
    have hs1 : e1.subject = s := by rw [hgeq] at hs; exact hs
    have ht1 : e1.topic = t := by rw [hgeq] at ht; exact ht
    have hnd := gapFold_keys_nodup studentId now progress [] (by simp)
    have hmem : (gapKey e1, g) ∈ progress.foldl (gapStep studentId now) [] := by
      rw [hgeq, ← hpe1]
      exact hp
    have hlk := lookupKey_eq_of_mem hnd hmem
    have hlook := gapFold_lookup studentId now progress [] (gapKey e1)
    rw [show lookupKey (gapKey e1) [] = none from rfl, Option.none_or, hlk] at hlook
    obtain ⟨e2, hfind2, hmk2⟩ := Option.map_eq_some'.1 hlook.symm
    have hpredeq : progress.find? (fun x => qualifies x && (gapKey x == gapKey e1))
        = firstQualifying progress s t := by
      unfold firstQualifying
      apply find?_ext
      intro x hx
      rw [Bool.eq_iff_iff]
      simp only [Bool.and_eq_true, beq_iff_eq]
      constructor
      · rintro ⟨hqx, hkx⟩
        have h3 := hinj x hx e1 he1 hkx
        exact ⟨h3.1.trans hs1, h3.2.trans ht1, hqx⟩
      · rintro ⟨hxs, hxt, hqx⟩
        refine ⟨hqx, ?_⟩
        unfold gapKey
        rw [hxs, hxt, hs1, ht1]
    refine ⟨e2, by rw [← hpredeq]; exact hfind2, ?_⟩
    rw [← hmk2]
    rfl
  · intro x
    unfold priorityOf
    split_ifs with h1 h2 <;>
      refine ⟨?_, ?_, ?_⟩ <;>
      simp_all <;>
      linarith

/-- C2 witness for the amended claim: a single-event history (score 30,
qualifying) with no key collision. -/
theorem learningGaps_iff_qualifying_witness :
    keyInjOn [sampleEvent "Math" "algebra" 30 0]
    ∧ ((∃ g ∈ identifyLearningGaps "s1" [sampleEvent "Math" "algebra" 30 0] 0,
          g.subject = "Math" ∧ g.topic = "algebra") ↔
        ∃ e ∈ [sampleEvent "Math" "algebra" 30 0],
          e.subject = "Math" ∧ e.topic = "algebra" ∧ qualifies e = true) :=
  ⟨by
    intro e1 h1 e2 h2 _
    rw [List.mem_singleton] at h1 h2
    subst h1
    subst h2
    exact ⟨rfl, rfl⟩,
    (learningGaps_iff_qualifying "s1" [sampleEvent "Math" "algebra" 30 0] 0
      "Math" "algebra" (by
        intro e1 h1 e2 h2 _
        rw [List.mem_singleton] at h1 h2
        subst h1
        subst h2
        exact ⟨rfl, rfl⟩)).1⟩

end EduMorph
